import Mathlib

set_option maxRecDepth 8192

/-!
PADDY product gateway, modelled in Lean.

This file is a shallow embedding of the status-normalization, query-building,
category-cache and product-update logic of the PADDY application
(`paddy.py` and `app/api_client.py`), together with theorems checking the
behaviour stated in the specification.

JSON-ish Python values are modelled by the inductive `PyVal` (with dicts as
the mutually-inductive `PyDict`, an insertion-ordered association list);
Python exceptions by `Except PyErr`.  Python floats are modelled as exact
(possibly unreduced) fractions plus the special values `inf`, `-inf` and
`nan`.  Overflow of the `float(...)` builtin beyond the IEEE 754 double
range is modelled exactly through the threshold `floatOverflowBound`
(a string literal overflows to an infinity, an integer conversion raises
`OverflowError`); mantissa rounding of in-range values is not modelled —
rounding can only affect which of the two canonical values a borderline
decimal literal maps to, never whether a coercion raises, and no claim
depends on it.
-/

/-- Errors a modelled Python expression can raise. -/
inductive PyErr where
  | valueError
  | typeError
  | overflowError
  | attributeError
  | apiError
deriving DecidableEq

/-- A Python float: a finite value modelled exactly as the fraction
`num / den` (not necessarily reduced, `den ≠ 0` for every value built
here), or one of the special values infinity, negative infinity,
not-a-number.  A `finite` value with magnitude beyond the IEEE 754 double
range does not arise as an actual Python float: every coercion modelled
here (`pyParseFloat`, the normalizer's numeric branch) sends such
magnitudes to an infinity or an `OverflowError` at `floatOverflowBound`. -/
inductive PyFloat where
  | finite (num : Int) (den : Nat)
  | inf
  | ninf
  | nan
deriving DecidableEq

mutual
/-- A Python/JSON value as it appears in API payloads: `None`, `bool`,
`int`, `float`, `str`, `list`, or `dict`. -/
inductive PyVal where
  | none
  | bool (b : Bool)
  | int (n : Int)
  | float (f : PyFloat)
  | str (s : String)
  | list (items : List PyVal)
  | dict (entries : PyDict)
/-- The entries of a Python dict, in insertion order, with distinct keys. -/
inductive PyDict where
  | nil
  | cons (k : String) (v : PyVal) (rest : PyDict)
end

/-- Build a `PyDict` from a list of key/value pairs. -/
def pyDictOf : List (String × PyVal) → PyDict
  | [] => .nil
  | (k, v) :: rest => .cons k v (pyDictOf rest)

/-- Python `d[k]` / `k in d` on a dict: the entry with the given key. -/
def pyLookup (d : PyDict) (k : String) : Option PyVal :=
  match d with
  | .nil => Option.none
  | .cons k' v rest => if k' = k then some v else pyLookup rest k

/-- Python `d[k] = v` on a dict: replace the entry if the key is present,
otherwise append it (insertion order is preserved). -/
def dictSet (d : PyDict) (k : String) (v : PyVal) : PyDict :=
  match d with
  | .nil => .cons k v .nil
  | .cons k' v' rest =>
      if k' = k then .cons k v rest else .cons k' v' (dictSet rest k v)

mutual
/-- A structural size on `PyVal`, used as recursion fuel for the status
normalizer (the normalizer only recurses into dict values, and the size of
a dict value strictly bounds the sizes of its entries). -/
def pyValSize : PyVal → Nat
  | .none => 1
  | .bool _ => 1
  | .int _ => 1
  | .float _ => 1
  | .str _ => 1
  | .list _ => 1
  | .dict entries => pyDictSize entries + 1
termination_by structural v => v
/-- Structural size of dict entries. -/
def pyDictSize : PyDict → Nat
  | .nil => 1
  | .cons _ v rest => pyValSize v + pyDictSize rest + 1
termination_by structural d => d
end

/-- ASCII lower-casing of one character (model of `str.lower` on the ASCII
strings in play). -/
def pyCharLower (c : Char) : Char :=
  if 'A' ≤ c ∧ c ≤ 'Z' then Char.ofNat (c.toNat + 32) else c

/-- Model of Python `str.lower()`. -/
def pyLower (s : String) : String := String.mk (s.data.map pyCharLower)

/-- Model of Python `str.strip()`: drop leading and trailing whitespace. -/
def pyStrip (s : String) : String :=
  String.mk
    (((s.data.dropWhile Char.isWhitespace).reverse.dropWhile
        Char.isWhitespace).reverse)

/-- True when every character is a decimal digit. -/
def allDigits (cs : List Char) : Bool := cs.all Char.isDigit

/-- Numeric value of a digit string. -/
def digitsVal (cs : List Char) : Nat :=
  cs.foldl (fun a c => a * 10 + (c.toNat - 48)) 0

/-- Significand of a Python decimal literal (`D+`, `D+.D*`, `.D+` or
`D+.D+`), as an exact fraction `num / den`. -/
def parseSignificand (cs : List Char) : Option (Int × Nat) :=
  let ip := cs.takeWhile Char.isDigit
  let rest := cs.dropWhile Char.isDigit
  match rest with
  | [] => if ip.isEmpty then Option.none else some ((digitsVal ip : Int), 1)
  | '.' :: frac =>
      if allDigits frac && !(ip.isEmpty && frac.isEmpty) then
        some ((digitsVal ip * 10 ^ frac.length + digitsVal frac : Int),
          10 ^ frac.length)
      else Option.none
  | _ => Option.none

/-- Digits of an exponent part. -/
def parseExpDigits (cs : List Char) : Option Int :=
  if cs.isEmpty then Option.none
  else if allDigits cs then some ((digitsVal cs : Int)) else Option.none

/-- Exponent part of a decimal literal, after the `e`. -/
def parseExpPart (cs : List Char) : Option Int :=
  match cs with
  | '+' :: ds => parseExpDigits ds
  | '-' :: ds => (parseExpDigits ds).map (fun n => -n)
  | ds => parseExpDigits ds

/-- Apply a power-of-ten exponent to an exact fraction. -/
def applyExp (num : Int) (den : Nat) (e : Int) : Int × Nat :=
  if 0 ≤ e then (num * (10 : Int) ^ e.toNat, den)
  else (num, den * 10 ^ (-e).toNat)

/-- A decimal literal with optional exponent, as an exact fraction. -/
def parseDecimalLit (cs : List Char) : Option (Int × Nat) :=
  match cs.span (fun c => c != 'e') with
  | (mant, []) => parseSignificand mant
  | (mant, _ :: expCs) =>
      match parseSignificand mant, parseExpPart expCs with
      | some md, some e => some (applyExp md.1 md.2 e)
      | _, _ => Option.none

/-- The overflow threshold of IEEE 754 double rounding: the largest finite
double is `2^1024 - 2^971`, and round-half-even sends every exact magnitude
of at least `2^1024 - 2^970` (the midpoint above it) to infinity.  Python's
`float(str)` returns an infinity for such a literal (e.g. `float("1e400")`
is `inf`), while `float(int)` raises `OverflowError` (e.g. on `10**400`);
either way the normalizer's `int(float(status))` then raises an
`OverflowError` that its `except (ValueError, TypeError)` does not
catch. -/
def floatOverflowBound : Nat := 2 ^ 1024 - 2 ^ 970

/-- Model of the Python builtin `float(str)`: strip and lower-case, optional
sign, then `inf`/`infinity`/`nan` or a decimal literal with optional
exponent; a literal whose magnitude reaches `floatOverflowBound` overflows
to the signed infinity, as IEEE double rounding does.  (Numeric underscores
are not modelled; neither is mantissa rounding of in-range literals, which
can only affect which canonical value a borderline literal normalizes to,
never whether a coercion raises.) -/
def pyParseFloat (s : String) : Option PyFloat :=
  let cs := (pyLower (pyStrip s)).data
  let signAndBody :=
    match cs with
    | '+' :: r => (false, r)
    | '-' :: r => (true, r)
    | r => (false, r)
  let neg := signAndBody.1
  let body := signAndBody.2
  if body = "inf".data ∨ body = "infinity".data then
    some (if neg then PyFloat.ninf else PyFloat.inf)
  else if body = "nan".data then some PyFloat.nan
  else
    match parseDecimalLit body with
    | some nd =>
        if (floatOverflowBound : Int) * (nd.2 : Int) ≤ nd.1 then
          some (if neg then PyFloat.ninf else PyFloat.inf)
        else some (PyFloat.finite (if neg then -nd.1 else nd.1) nd.2)
    | Option.none => Option.none

/-- Truncation toward zero of an exact fraction: the behaviour of Python
`int()` on a finite float. -/
def floatTrunc (num : Int) (den : Nat) : Int := num.tdiv (den : Int)

/-- Model of the Python builtin `int(str)`: strip, optional sign, decimal
digits. -/
def pyIntOfString (s : String) : Option Int :=
  let cs := (pyStrip s).data
  let signAndBody :=
    match cs with
    | '+' :: r => (false, r)
    | '-' :: r => (true, r)
    | r => (false, r)
  let neg := signAndBody.1
  let body := signAndBody.2
  if body.isEmpty then Option.none
  else if allDigits body then
    some (if neg then -((digitsVal body : Int)) else ((digitsVal body : Int)))
  else Option.none

/-- Model of the Python builtin `int(...)` on the value shapes in play:
`int(bool)`, `int(int)`, `int(float)` (truncating; `ValueError` on `nan`,
`OverflowError` on infinities), `int(str)` (`ValueError` on a non-integer
literal), `TypeError` on `None`, lists and dicts. -/
def pyInt : PyVal → Except PyErr Int
  | .bool b => .ok (if b then 1 else 0)
  | .int n => .ok n
  | .float (.finite num den) => .ok (floatTrunc num den)
  | .float .nan => .error .valueError
  | .float .inf => .error .overflowError
  | .float .ninf => .error .overflowError
  | .str s =>
      match pyIntOfString s with
      | some n => .ok n
      | Option.none => .error .valueError
  | .none => .error .typeError
  | .list _ => .error .typeError
  | .dict _ => .error .typeError

/-- Python `v == n` between an arbitrary value and an `int` literal:
true for an equal `int`, for a `bool` (which equals `0`/`1` in Python),
and for an equal finite float; false for every other shape. -/
def pyEqInt (v : PyVal) (n : Int) : Bool :=
  match v with
  | .int m => m = n
  | .bool b => (if b then (1 : Int) else 0) = n
  | .float (.finite num den) => num = n * (den : Int)
  | _ => false

/-! ## The status normalizer, `PaddyApp._normalize_ecommerce_status`
(`paddy.py` lines 611-762).

The Python function checks, in order: `None`; strings (strip, lower-case,
then a literal mapping — on a miss it falls through with the stripped,
lowered string); booleans; a numeric coercion `int(float(status))` whose
`try` catches only `ValueError` and `TypeError` (so an `OverflowError` from
an infinite float escapes); dicts (a fixed priority list of keys, the first
key present decides, with direct `int`/`bool`/`str` checks and a recursive
call otherwise, any exception continuing with the next key); and a final
fallback returning `1` (Not Available).

Because Python `bool` is a subclass of `int`, a boolean dict value is
consumed by the `isinstance(value, int)` check (`0 if value == 0 else 1`),
not by the later `isinstance(value, bool)` line, which is unreachable
for it.

The recursion through nested dicts is realised with a fuel parameter
(`normalizeF`); `normalize_ecommerce_status` supplies `pyValSize v` fuel,
which is proved sufficient below (`normalizeF_stable`). -/

/-- The string mapping of `_normalize_ecommerce_status`
(`paddy.py` lines 641-655), applied to a stripped, lower-cased string. -/
def statusMapping (t : String) : Option Int :=
  if t = "available" ∨ t = "enabled" ∨ t = "true" ∨ t = "0" ∨ t = "active" then
    some 0
  else if t = "not available" ∨ t = "disabled" ∨ t = "false" ∨ t = "1" ∨
      t = "inactive" then
    some 1
  else Option.none

/-- Numeric fall-through (`paddy.py` lines 680-692) for a string that missed
the mapping: `int(float(t))`; a `ValueError` (unparseable string or `nan`)
is caught and the function falls through to the final fallback `1` (the
string is not a dict), while an `OverflowError` from an infinite value
escapes. -/
def normStrTail (t : String) : Except PyErr Int :=
  match pyParseFloat t with
  | some (.finite num den) => .ok (if floatTrunc num den = 0 then 0 else 1)
  | some .nan => .ok 1
  | some .inf => .error .overflowError
  | some .ninf => .error .overflowError
  | Option.none => .ok 1

/-- String handling of `_normalize_ecommerce_status` (`paddy.py` lines
637-665 plus the numeric fall-through): strip and lower-case, consult the
mapping, otherwise coerce numerically. -/
def normStr (s : String) : Except PyErr Int :=
  match statusMapping (pyLower (pyStrip s)) with
  | some n => .ok n
  | Option.none => normStrTail (pyLower (pyStrip s))

/-- Numeric handling (`paddy.py` lines 680-692) of a float input:
`int(float(status))`, `0` for a truncated zero, otherwise `1`; `nan` raises
`ValueError` (caught, falling through to the fallback `1`); infinities raise
`OverflowError`, which the `except (ValueError, TypeError)` does not
catch. -/
def normFloat : PyFloat → Except PyErr Int
  | .finite num den => .ok (if floatTrunc num den = 0 then 0 else 1)
  | .nan => .ok 1
  | .inf => .error .overflowError
  | .ninf => .error .overflowError

/-- The dict key priority list of `_normalize_ecommerce_status`
(`paddy.py` lines 697-708). -/
def dictKeysToCheck : List String :=
  ["Value", "value", "isAvailable", "Status", "status", "Name", "name",
   "ECommerceStatus", "WebStatus", "web_status"]

/-- The `try: ... except Exception: continue` around the recursive call in
the dict key loop (`paddy.py` lines 712-751): a successful normalization is
returned, an exception is swallowed and the loop continues with `next`. -/
def recover (r : Except PyErr Int) (next : Except PyErr Int) :
    Except PyErr Int :=
  match r with
  | .ok n => .ok n
  | .error _ => next

/-- The direct string checks of the dict key loop
(`paddy.py` lines 722-727): the stripped, lower-cased value is tested
against two quick lists, and any other string is handed to the recursive
normalization (`paddy.py` line 730), whose string handling is `normStr`. -/
def dictStrCheck (next : Except PyErr Int) (s : String) :
    Except PyErr Int :=
  if pyLower (pyStrip s) = "available" ∨
      pyLower (pyStrip s) = "enabled" ∨
      pyLower (pyStrip s) = "true" ∨ pyLower (pyStrip s) = "0" then
    .ok 0
  else if pyLower (pyStrip s) = "not available" ∨
      pyLower (pyStrip s) = "disabled" ∨
      pyLower (pyStrip s) = "false" ∨ pyLower (pyStrip s) = "1" then
    .ok 1
  else recover (normStr (pyLower (pyStrip s))) next

/-- The body of one dict key loop iteration on the value found under the
key (`paddy.py` lines 713-740): `isinstance(value, int)` — which in Python
is also satisfied by `bool` values, so a boolean hits `0 if value == 0
else 1` and the later `isinstance(value, bool)` line is unreachable for
it — then the string quick lists, and a recursive call for every other
shape (spelled out per constructor here). -/
def dictDirect (norm : PyVal → Except PyErr Int)
    (next : Except PyErr Int) : PyVal → Except PyErr Int
  | .bool b => .ok (if b then 1 else 0)
  | .int n => .ok (if n = 0 then 0 else 1)
  | .str s => dictStrCheck next s
  | .none => recover (norm PyVal.none) next
  | .float f => recover (norm (PyVal.float f)) next
  | .list l => recover (norm (PyVal.list l)) next
  | .dict d => recover (norm (PyVal.dict d)) next

/-- One iteration of the dict key loop (`paddy.py` lines 710-751) for key
`k`: if the key is absent, continue with `next`; otherwise process the
value found under it. -/
def dictKeyStep (norm : PyVal → Except PyErr Int)
    (d : PyDict) (k : String) (next : Except PyErr Int) :
    Except PyErr Int :=
  match pyLookup d k with
  | Option.none => next
  | some v => dictDirect norm next v

/-- The dict key loop (`paddy.py` lines 710-751): try each key of
`dictKeysToCheck` in order; when the loop exhausts the keys the function
falls through to the fallback `return 1` (`paddy.py` line 762). -/
def dictLoop (norm : PyVal → Except PyErr Int)
    (d : PyDict) : List String → Except PyErr Int
  | [] => .ok 1
  | k :: ks => dictKeyStep norm d k (dictLoop norm d ks)

/-- Body of `_normalize_ecommerce_status`, with the recursive call
abstracted: `None` → `1`; strings via `normStr`; booleans via
`1 if status else 0` (`paddy.py` line 669 — note `True` maps to `1`,
Not Available); ints via `int(float(status))`, where `float(n)` raises
`OverflowError` — uncaught by the `except (ValueError, TypeError)` — for
an integer too large to convert to a double, and the value is otherwise
compared with zero (mantissa rounding of in-range integers cannot change
whether the result is zero); floats via `normFloat`; lists fall through
every branch (the numeric `TypeError` is caught) to the fallback `1`;
dicts enter the key loop. -/
def normBody (norm : PyVal → Except PyErr Int) : PyVal → Except PyErr Int
  | .none => .ok 1
  | .str s => normStr s
  | .bool b => .ok (if b then 1 else 0)
  | .int n =>
      if floatOverflowBound ≤ n.natAbs then .error .overflowError
      else .ok (if n = 0 then 0 else 1)
  | .float f => normFloat f
  | .list _ => .ok 1
  | .dict d => dictLoop norm d dictKeysToCheck

/-- Fuelled unfolding of `_normalize_ecommerce_status`; the fuel only
decreases on recursion into a dict value, and `pyValSize` fuel is proved
sufficient (`normalizeF_stable`). -/
def normalizeF : Nat → PyVal → Except PyErr Int
  | 0, _ => .ok 1
  | fuel + 1, v => normBody (normalizeF fuel) v

/-- `PaddyApp._normalize_ecommerce_status` (`paddy.py` lines 611-762):
normalize a raw e-commerce status to `0` (Available) or `1`
(Not Available). -/
def normalize_ecommerce_status (v : PyVal) : Except PyErr Int :=
  normalizeF (pyValSize v) v

/-! ## The API client, `app/api_client.py` -/

/-- `APIClient.MAX_ITEMS_PER_PAGE` (`api_client.py` line 40). -/
def MAX_ITEMS_PER_PAGE : Int := 30

/-- The sort-field allow list of `APIClient.get_products`
(`api_client.py` lines 351-357). -/
def validSortFields : List String :=
  ["Code", "Description", "ImageCount", "D_WebCategory",
   "D_Classification", "D_ThreadGender",
   "D_SizeA", "D_SizeB", "D_SizeC", "D_SizeD",
   "D_Orientation", "D_Configuration", "D_Grade",
   "D_ManufacturerName", "D_Application"]

/-- The `sort` query parameter computed by `APIClient.get_products`
(`api_client.py` lines 359-384): with a truthy sort field, the direction is
lower-cased and reset to `asc` unless it is `asc`/`dsc`, and an unrecognized
field is silently dropped; without a (truthy) field the stable default
`Code[asc]` applies. -/
def get_products_sort_param (sortField : Option String)
    (sortDirection : String) : String :=
  match sortField with
  | some f =>
      if f = "" then "Code[asc]"
      else
        let dir0 := pyLower sortDirection
        let dir := if dir0 = "asc" ∨ dir0 = "dsc" then dir0 else "asc"
        if f ∈ validSortFields then f ++ "[" ++ dir ++ "]" else "Code[asc]"
  | Option.none => "Code[asc]"

/-- The query parameters sent upstream by `APIClient.get_products`. -/
structure ProductQueryParams where
  categoryEq : Int
  offset : Int
  fetch : Int
  sort : String
deriving DecidableEq

/-- The query-parameter construction of `APIClient.get_products`
(`api_client.py` lines 334-384): a falsy (zero) category id is a caller
error (`ValueError`); otherwise `offset = (page - 1) * items_per_page` and
`fetch = items_per_page` — the requested page size is used as given, with
no clamp. -/
def get_products_params (categoryId page itemsPerPage : Int)
    (sortField : Option String) (sortDirection : String) :
    Except PyErr ProductQueryParams :=
  if categoryId = 0 then .error .valueError
  else
    .ok
      { categoryEq := categoryId
        offset := (page - 1) * itemsPerPage
        fetch := itemsPerPage
        sort := get_products_sort_param sortField sortDirection }

/-- The query parameters sent upstream by `APIClient.search_products_api`;
each filter is present only when the corresponding argument is truthy. -/
structure SearchQueryParams where
  categoryEq : Option String
  codeCnt : Option String
  descriptionCnt : Option String
  offset : Int
  fetch : Int
  sort : String
deriving DecidableEq

/-- Python truthiness for an optional string: `None` and `""` are falsy. -/
def truthyStr : Option String → Option String
  | some s => if s = "" then Option.none else some s
  | Option.none => Option.none

/-- The query-parameter construction of `APIClient.search_products_api`
(`api_client.py` lines 594-615): `items_per_page` is clamped with
`min(items_per_page, MAX_ITEMS_PER_PAGE)` before the offset and fetch are
computed; filters use the upstream `Field[operator]` convention and the
sort is always `Code[asc]`. -/
def search_products_api_params (category codeQuery descriptionQuery :
    Option String) (page itemsPerPage : Int) : SearchQueryParams :=
  { categoryEq := truthyStr category
    codeCnt := truthyStr codeQuery
    descriptionCnt := truthyStr descriptionQuery
    offset := (page - 1) * min itemsPerPage MAX_ITEMS_PER_PAGE
    fetch := min itemsPerPage MAX_ITEMS_PER_PAGE
    sort := "Code[asc]" }

/-- The page assembled by `get_products`/`search_products_api` from an
upstream response. -/
structure ProductPage where
  totalCount : Int
  currentPage : Int
  itemsPerPage : Int
  totalPages : Int
  data : List PyVal

/-- `response.get('TotalCount', 0)` as used in the page arithmetic
(`api_client.py` lines 426, 664); a non-integer value would poison the
arithmetic with a `TypeError` (bools are ints in Python; other shapes are
abstracted as a `TypeError`). -/
def respTotalCount (d : PyDict) : Except PyErr Int :=
  match pyLookup d "TotalCount" with
  | some (.int n) => .ok n
  | some (.bool b) => .ok (if b then 1 else 0)
  | Option.none => .ok 0
  | some _ => .error .typeError

/-- `response.get('Data', [])` as used when building the result page
(`api_client.py` lines 434, 672); iterating a non-list raises. -/
def respData (d : PyDict) : Except PyErr (List PyVal) :=
  match pyLookup d "Data" with
  | some (.list l) => .ok l
  | Option.none => .ok []
  | some _ => .error .typeError

/-- `product.get('Category', {}).get('ID')` (`api_client.py` line 436);
products and their `Category` field are dicts in every response shape in
play (other shapes, which would raise `AttributeError`, are abstracted to
`None`, which compares unequal to every category id). -/
def productCategoryId (p : PyVal) : PyVal :=
  match p with
  | .dict d =>
      match pyLookup d "Category" with
      | some (.dict c) => (pyLookup c "ID").getD PyVal.none
      | _ => PyVal.none
  | _ => PyVal.none

/-- The response processing of `APIClient.get_products`
(`api_client.py` lines 426-450): read `TotalCount` and `Data`, compute
`TotalPages = (TotalCount + items_per_page - 1) // items_per_page`
(Python floor division), and re-filter `Data` to the products whose
`Category.ID` equals the requested category. -/
def get_products_process (categoryId page itemsPerPage : Int)
    (resp : PyDict) : Except PyErr ProductPage :=
  match respTotalCount resp with
  | .error e => .error e
  | .ok totalCount =>
      match respData resp with
      | .error e => .error e
      | .ok data =>
          .ok
            { totalCount := totalCount
              currentPage := page
              itemsPerPage := itemsPerPage
              totalPages := Int.fdiv (totalCount + itemsPerPage - 1) itemsPerPage
              data := data.filter (fun p => pyEqInt (productCategoryId p) categoryId) }

/-- The empty page returned by `search_products_api` when any exception is
raised (`api_client.py` lines 689-695). -/
def emptySearchPage (page ipp : Int) : ProductPage :=
  { totalCount := 0
    currentPage := page
    itemsPerPage := ipp
    totalPages := 0
    data := [] }

/-- The response processing of `APIClient.search_products_api`
(`api_client.py` lines 663-675): read `TotalCount` and `Data`, compute
`TotalPages`, and return `Data` unchanged — no category re-filter; the
surrounding `except Exception` degrades any failure to an empty page.
`itemsPerPageEff` is the already-clamped page size (line 595). -/
def search_products_api_process (page itemsPerPageEff : Int)
    (resp : PyDict) : ProductPage :=
  match respTotalCount resp with
  | .error _ => emptySearchPage page itemsPerPageEff
  | .ok totalCount =>
      match respData resp with
      | .error _ => emptySearchPage page itemsPerPageEff
      | .ok data =>
          { totalCount := totalCount
            currentPage := page
            itemsPerPage := itemsPerPageEff
            totalPages := Int.fdiv (totalCount + itemsPerPageEff - 1) itemsPerPageEff
            data := data }

/-- Outcome of the cache read at the top of `APIClient.get_categories`
(`api_client.py` lines 254-276): the store may be missing
(`os.path.exists` false), unreadable (`IOError`), unparseable
(`json.JSONDecodeError`), or hold a cached document. -/
inductive CacheRead where
  | missing
  | readFailure
  | parseFailure
  | cached (data : PyVal)

/-- The empty-but-valid result of `get_categories` on total failure
(`api_client.py` line 311). -/
def emptyCategories : PyVal :=
  PyVal.dict (pyDictOf [("TotalCount", PyVal.int 0), ("Data", PyVal.list [])])

/-- `APIClient.get_categories` (`api_client.py` lines 244-311) as a function
of the cache-read outcome and the upstream fetch result: a readable,
parseable cache snapshot is returned as-is; otherwise the category list is
fetched (a cache-write failure after a successful fetch is logged, not
fatal, so the fetched data is returned regardless); a fetch failure
(`APIError`) degrades to `{TotalCount: 0, Data: []}`. -/
def get_categories (cache : CacheRead) (fetchResult : Except PyErr PyVal) :
    PyVal :=
  match cache with
  | .cached d => d
  | _ =>
      match fetchResult with
      | .ok d => d
      | .error _ => emptyCategories

/-- The nested object `update_product` writes for the status enum
(`api_client.py` lines 490-495): `Value` is the normalized integer, `Name`
is `"Disabled"` when it is `1` and `"Enabled"` otherwise, and `isAvailable`
is true exactly for `0`. -/
def statusWriteShape (n : Int) : PyVal :=
  PyVal.dict (pyDictOf
    [("Value", PyVal.int n),
     ("Name", PyVal.str (if n = 1 then "Disabled" else "Enabled")),
     ("isAvailable", PyVal.bool (n == 0))])

/-- The payload transformation of `APIClient.update_product`
(`api_client.py` lines 484-495): when the payload carries
`ECommerceSettings.ECommerceStatus`, the status is coerced with `int(...)`
(whose exception aborts the update — it is caught by the function's
`except Exception`, so no PUT is issued) and replaced by the nested
`statusWriteShape` object.  A non-dict `ECommerceSettings` value is not a
shape the callers produce and is abstracted as a `TypeError`. -/
def update_product_transform (payload : PyDict) : Except PyErr PyDict :=
  match pyLookup payload "ECommerceSettings" with
  | some (.dict settings) =>
      match pyLookup settings "ECommerceStatus" with
      | some st =>
          match pyInt st with
          | .ok n =>
              .ok (dictSet payload "ECommerceSettings"
                (.dict (dictSet settings "ECommerceStatus" (statusWriteShape n))))
          | .error e => .error e
      | Option.none => .ok payload
  | Option.none => .ok payload
  | some _ => .error .typeError

/-- Classification of the PUT response by `APIClient.update_product`
(`api_client.py` lines 514-561). -/
inductive UpdateOutcome where
  | success
  | failed
  | unexpectedFormat
deriving DecidableEq

/-- Python `response.get('Status') == 'Processed'`: true only for that
literal string value. -/
def isProcessedStatus (v : PyVal) : Bool :=
  match v with
  | .str s => s = "Processed"
  | _ => false

/-- The response handling of `APIClient.update_product`
(`api_client.py` lines 514-561): a dict response whose `Status` equals the
literal string `'Processed'` is a successful update; a dict with any other
`Status` is a failed update; a non-dict response is an unexpected format.
No other sentinel (in particular not `'Ok'`) is accepted. -/
def update_product_outcome (response : PyVal) : UpdateOutcome :=
  match response with
  | .dict d =>
      if isProcessedStatus ((pyLookup d "Status").getD PyVal.none) then
        .success
      else .failed
  | _ => .unexpectedFormat

/-! ## The update route, `PaddyApp._update_product_route`
(`paddy.py` lines 764-932). -/

/-- The dynamic-field allow list (`paddy.py` lines 846-850). -/
def allowedFields : List String :=
  ["D_Classification", "D_ThreadGender", "D_SizeA", "D_SizeB",
   "D_SizeC", "D_SizeD", "D_Orientation", "D_Configuration",
   "D_Grade", "D_ManufacturerName", "D_Application", "D_WebCategory"]

/-- `current_product.get('ECommerceSettings', {}).copy()`
(`paddy.py` line 799): the current settings dict, or empty when absent
(a non-dict value, on which `.copy()` would raise `AttributeError`, is not
a shape the upstream produces). -/
def routeEcomSettings (currentProduct : PyDict) : Except PyErr PyDict :=
  match pyLookup currentProduct "ECommerceSettings" with
  | some (.dict s) => .ok s
  | Option.none => .ok .nil
  | some _ => .error .attributeError

/-- The dynamic-field pass of the route (`paddy.py` lines 852-855): copy
every allow-listed key of the update data into the payload, in the update
data's order. -/
def addAllowedFields (ud : PyDict) (acc : PyDict) : PyDict :=
  match ud with
  | .nil => acc
  | .cons k v rest =>
      addAllowedFields rest (if k ∈ allowedFields then dictSet acc k v else acc)

/-- The payload construction of `_update_product_route`
(`paddy.py` lines 795-855): fetch the current product's settings; if the
update carries `ECommerceSettings.ECommerceStatus` (or, for backward
compatibility, `web_status`), normalize it and merge it into the current
settings; if it carries `extended_description`, store it in the (possibly
just-merged) settings; finally copy the allow-listed dynamic fields.  A
normalization exception propagates to the route's `except Exception`
handler (HTTP 500). -/
def route_build_payload (updateData currentProduct : PyDict) :
    Except PyErr PyDict :=
  match routeEcomSettings currentProduct with
  | .error e => .error e
  | .ok settings0 =>
      let statusStep : Except PyErr (PyDict × PyDict) :=
        match pyLookup updateData "ECommerceSettings.ECommerceStatus" with
        | some w =>
            match normalize_ecommerce_status w with
            | .ok n =>
                let s1 := dictSet settings0 "ECommerceStatus" (.int n)
                .ok (pyDictOf [("ECommerceSettings", .dict s1)], s1)
            | .error e => .error e
        | Option.none =>
            match pyLookup updateData "web_status" with
            | some w =>
                match normalize_ecommerce_status w with
                | .ok n =>
                    let s1 := dictSet settings0 "ECommerceStatus" (.int n)
                    .ok (pyDictOf [("ECommerceSettings", .dict s1)], s1)
                | .error e => .error e
            | Option.none => .ok (.nil, settings0)
      match statusStep with
      | .error e => .error e
      | .ok (payload0, settings1) =>
          let payload1 :=
            match pyLookup updateData "extended_description" with
            | some v =>
                dictSet payload0 "ECommerceSettings"
                  (.dict (dictSet settings1 "ExtendedDescription" v))
            | Option.none => payload0
          .ok (addAllowedFields updateData payload1)

/-- The full write path of the update route: build the payload from the
update data and the freshly fetched current product, then apply
`update_product`'s payload transformation; the result is exactly the JSON
body of the upstream PUT (an error means the update was aborted and no PUT
was issued). -/
def route_update_pipeline (updateData currentProduct : PyDict) :
    Except PyErr PyDict :=
  match route_build_payload updateData currentProduct with
  | .error e => .error e
  | .ok p => update_product_transform p

/-- True when the string coerces to an infinite float. -/
def isInfFloatStr (t : String) : Bool :=
  match pyParseFloat t with
  | some .inf => true
  | some .ninf => true
  | _ => false

/-- The inputs on which the normalizer's numeric branch raises an uncaught
`OverflowError` from `int(float(status))`: a top-level infinite float, an
integer too large to convert to a double (magnitude at least
`floatOverflowBound`, e.g. `10^400`), or a top-level string that misses the
status mapping and coerces to an infinite float (`"inf"`, or an overflowing
literal such as `"1e400"`). -/
def topLevelOverflow (v : PyVal) : Bool :=
  match v with
  | .float .inf => true
  | .float .ninf => true
  | .int n => floatOverflowBound ≤ n.natAbs
  | .str s =>
      (statusMapping (pyLower (pyStrip s))).isNone &&
        isInfFloatStr (pyLower (pyStrip s))
  | _ => false

/-- Shapes that reach the normalizer's final fallback: lists, and dicts
containing none of the recognized keys. -/
def unrecognizedShape (v : PyVal) : Bool :=
  match v with
  | .list _ => true
  | .dict d => dictKeysToCheck.all (fun k => (pyLookup d k).isNone)
  | _ => false

/-- True exactly for string values. -/
def isStrVal : PyVal → Bool
  | .str _ => true
  | _ => false

/-- True exactly for dict values. -/
def isDictVal : PyVal → Bool
  | .dict _ => true
  | _ => false

/-- True exactly for int values. -/
def isIntVal : PyVal → Bool
  | .int _ => true
  | _ => false

/-! ## General lemmas about the normalizer -/

/-- The string mapping only produces the two canonical values. -/
theorem statusMapping_range (t : String) (n : Int)
    (h : statusMapping t = some n) : n = 0 ∨ n = 1 := by
  unfold statusMapping at h
  split at h
  · exact Or.inl (Option.some.inj h).symm
  · split at h
    · exact Or.inr (Option.some.inj h).symm
    · exact absurd h (by simp)

/-- The numeric fall-through returns a canonical value or overflows. -/
theorem normStrTail_range (t : String) :
    normStrTail t = .ok 0 ∨ normStrTail t = .ok 1 ∨
      normStrTail t = .error .overflowError := by
  unfold normStrTail
  split
  · split
    · exact Or.inl rfl
    · exact Or.inr (Or.inl rfl)
  · exact Or.inr (Or.inl rfl)
  · exact Or.inr (Or.inr rfl)
  · exact Or.inr (Or.inr rfl)
  · exact Or.inr (Or.inl rfl)

/-- String normalization returns a canonical value or overflows. -/
theorem normStr_range (s : String) :
    normStr s = .ok 0 ∨ normStr s = .ok 1 ∨
      normStr s = .error .overflowError := by
  unfold normStr
  split
  · rename_i n h
    rcases statusMapping_range _ _ h with h0 | h1
    · subst h0; exact Or.inl rfl
    · subst h1; exact Or.inr (Or.inl rfl)
  · exact normStrTail_range _

/-- Float normalization returns a canonical value or overflows. -/
theorem normFloat_range (f : PyFloat) :
    normFloat f = .ok 0 ∨ normFloat f = .ok 1 ∨
      normFloat f = .error .overflowError := by
  unfold normFloat
  split
  · split
    · exact Or.inl rfl
    · exact Or.inr (Or.inl rfl)
  · exact Or.inr (Or.inl rfl)
  · exact Or.inr (Or.inr rfl)
  · exact Or.inr (Or.inr rfl)

/-- The recovery wrapper yields a canonical value whenever the wrapped
result is canonical-or-overflow and the continuation is canonical. -/
theorem recover_range (r next : Except PyErr Int)
    (hr : r = .ok 0 ∨ r = .ok 1 ∨ r = .error .overflowError)
    (hnext : next = .ok 0 ∨ next = .ok 1) :
    recover r next = .ok 0 ∨ recover r next = .ok 1 := by
  rcases hr with h | h | h <;> rw [h]
  · exact Or.inl rfl
  · exact Or.inr rfl
  · exact hnext

/-- The string checks of the dict key loop yield a canonical value. -/
theorem dictStrCheck_range (next : Except PyErr Int) (s : String)
    (hnext : next = .ok 0 ∨ next = .ok 1) :
    dictStrCheck next s = .ok 0 ∨ dictStrCheck next s = .ok 1 := by
  unfold dictStrCheck
  split
  · exact Or.inl rfl
  · split
    · exact Or.inr rfl
    · exact recover_range _ _ (normStr_range _) hnext

/-- The per-value body of the dict key loop yields a canonical value. -/
theorem dictDirect_range (norm : PyVal → Except PyErr Int)
    (hnorm : ∀ v, norm v = .ok 0 ∨ norm v = .ok 1 ∨
      norm v = .error .overflowError)
    (next : Except PyErr Int) (hnext : next = .ok 0 ∨ next = .ok 1) :
    ∀ v, dictDirect norm next v = .ok 0 ∨ dictDirect norm next v = .ok 1 := by
  intro v
  cases v with
  | bool b =>
      cases b
      · exact Or.inl rfl
      · exact Or.inr rfl
  | int n =>
      rcases eq_or_ne n 0 with hn | hn
      · refine Or.inl ?_
        show Except.ok (if n = 0 then 0 else 1) = Except.ok 0
        rw [if_pos hn]
      · refine Or.inr ?_
        show Except.ok (if n = 0 then 0 else 1) = Except.ok 1
        rw [if_neg hn]
  | str s => exact dictStrCheck_range next s hnext
  | none => exact recover_range _ _ (hnorm _) hnext
  | float ff => exact recover_range _ _ (hnorm _) hnext
  | list l => exact recover_range _ _ (hnorm _) hnext
  | dict d2 => exact recover_range _ _ (hnorm _) hnext

/-- One step of the dict key loop cannot raise: the direct checks return a
canonical value and an exception from the recursion is caught. -/
theorem dictKeyStep_range (norm : PyVal → Except PyErr Int)
    (hnorm : ∀ v, norm v = .ok 0 ∨ norm v = .ok 1 ∨
      norm v = .error .overflowError)
    (d : PyDict) (k : String) (next : Except PyErr Int)
    (hnext : next = .ok 0 ∨ next = .ok 1) :
    dictKeyStep norm d k next = .ok 0 ∨
      dictKeyStep norm d k next = .ok 1 := by
  unfold dictKeyStep
  cases pyLookup d k with
  | none => exact hnext
  | some v => exact dictDirect_range norm hnorm next hnext v

/-- The dict key loop never raises: every exception from a recursive call
is caught and the loop continues, and the exhausted loop falls through to
the fallback `1`. -/
theorem dictLoop_range (norm : PyVal → Except PyErr Int)
    (hnorm : ∀ v, norm v = .ok 0 ∨ norm v = .ok 1 ∨
      norm v = .error .overflowError)
    (d : PyDict) (keys : List String) :
    dictLoop norm d keys = .ok 0 ∨ dictLoop norm d keys = .ok 1 := by
  induction keys with
  | nil => exact Or.inr rfl
  | cons k ks ih => exact dictKeyStep_range norm hnorm d k _ ih

/-- At every fuel, the normalizer returns a canonical value or raises the
numeric branch's `OverflowError`. -/
theorem normalizeF_range (fuel : Nat) :
    ∀ v, normalizeF fuel v = .ok 0 ∨ normalizeF fuel v = .ok 1 ∨
      normalizeF fuel v = .error .overflowError := by
  induction fuel with
  | zero => intro v; exact Or.inr (Or.inl rfl)
  | succ f ih =>
      intro v
      cases v with
      | none => exact Or.inr (Or.inl rfl)
      | str s => exact normStr_range s
      | bool b =>
          cases b
          · exact Or.inl rfl
          · exact Or.inr (Or.inl rfl)
      | int n =>
          by_cases hb : floatOverflowBound ≤ n.natAbs
          · refine Or.inr (Or.inr ?_)
            show (if floatOverflowBound ≤ n.natAbs then
                Except.error PyErr.overflowError
              else Except.ok (if n = 0 then 0 else 1)) =
              Except.error PyErr.overflowError
            rw [if_pos hb]
          · rcases eq_or_ne n 0 with hn | hn
            · refine Or.inl ?_
              show (if floatOverflowBound ≤ n.natAbs then
                  Except.error PyErr.overflowError
                else Except.ok (if n = 0 then 0 else 1)) = Except.ok 0
              rw [if_neg hb, if_pos hn]
            · refine Or.inr (Or.inl ?_)
              show (if floatOverflowBound ≤ n.natAbs then
                  Except.error PyErr.overflowError
                else Except.ok (if n = 0 then 0 else 1)) = Except.ok 1
              rw [if_neg hb, if_neg hn]
      | float ff => exact normFloat_range ff
      | list l => exact Or.inr (Or.inl rfl)
      | dict d =>
          rcases dictLoop_range (normalizeF f) ih d dictKeysToCheck with h | h
          · exact Or.inl h
          · exact Or.inr (Or.inl h)

/-- When none of the recognized keys is present, the dict key loop falls
through to the fallback `1`. -/
theorem dictLoop_all_absent (norm : PyVal → Except PyErr Int) (d : PyDict) :
    ∀ keys : List String, (∀ k ∈ keys, pyLookup d k = Option.none) →
      dictLoop norm d keys = .ok 1 := by
  intro keys
  induction keys with
  | nil => intro _; rfl
  | cons k ks ih =>
      intro h
      show dictKeyStep norm d k (dictLoop norm d ks) = _
      unfold dictKeyStep
      rw [h k (by simp)]
      exact ih (fun k' hk' => h k' (by simp [hk']))

/-! ## Sufficiency of `pyValSize` fuel -/

/-- A value found in a dict is structurally smaller than the dict. -/
theorem pyLookup_size (k : String) (v : PyVal) :
    ∀ d : PyDict, pyLookup d k = some v →
      pyValSize v < pyValSize (PyVal.dict d)
  | .nil, h => absurd h (by simp [pyLookup])
  | .cons k' v' rest, h => by
      unfold pyLookup at h
      split at h
      · injection h with h2
        subst h2
        simp only [pyValSize, pyDictSize]
        omega
      · have hrec := pyLookup_size k v rest h
        simp only [pyValSize, pyDictSize] at hrec ⊢
        omega

/-- The dict key loop only consults the recursive normalizer on values
found in the dict, so two normalizers agreeing there give equal loops. -/
theorem dictLoop_congr (norm1 norm2 : PyVal → Except PyErr Int) (d : PyDict)
    (h : ∀ k v, pyLookup d k = some v → norm1 v = norm2 v) :
    ∀ keys : List String, dictLoop norm1 d keys = dictLoop norm2 d keys := by
  intro keys
  induction keys with
  | nil => rfl
  | cons k ks ih =>
      show dictKeyStep norm1 d k (dictLoop norm1 d ks) =
        dictKeyStep norm2 d k (dictLoop norm2 d ks)
      unfold dictKeyStep
      cases hk : pyLookup d k with
      | none => exact ih
      | some v =>
          have hv := h k v hk
          cases v with
          | bool b => rfl
          | int n => rfl
          | str s =>
              show dictStrCheck (dictLoop norm1 d ks) s =
                dictStrCheck (dictLoop norm2 d ks) s
              rw [ih]
          | none =>
              show recover (norm1 PyVal.none) (dictLoop norm1 d ks) =
                recover (norm2 PyVal.none) (dictLoop norm2 d ks)
              rw [hv, ih]
          | float ff =>
              show recover (norm1 (PyVal.float ff)) (dictLoop norm1 d ks) =
                recover (norm2 (PyVal.float ff)) (dictLoop norm2 d ks)
              rw [hv, ih]
          | list l =>
              show recover (norm1 (PyVal.list l)) (dictLoop norm1 d ks) =
                recover (norm2 (PyVal.list l)) (dictLoop norm2 d ks)
              rw [hv, ih]
          | dict d2 =>
              show recover (norm1 (PyVal.dict d2)) (dictLoop norm1 d ks) =
                recover (norm2 (PyVal.dict d2)) (dictLoop norm2 d ks)
              rw [hv, ih]

/-- Adding fuel beyond `pyValSize` does not change the normalizer. -/
theorem normalizeF_succ_eq :
    ∀ f : Nat, ∀ v, pyValSize v ≤ f →
      normalizeF (f + 1) v = normalizeF f v := by
  intro f
  induction f using Nat.strong_induction_on with
  | _ f ihf =>
      intro v hv
      cases v with
      | dict d =>
          have h1 : 1 ≤ f := by
            simp only [pyValSize] at hv
            omega
          obtain ⟨g, rfl⟩ : ∃ g, f = g + 1 := ⟨f - 1, by omega⟩
          show dictLoop (normalizeF (g + 1)) d dictKeysToCheck =
            dictLoop (normalizeF g) d dictKeysToCheck
          refine dictLoop_congr _ _ d (fun k v' hk => ?_) dictKeysToCheck
          have hs := pyLookup_size k v' d hk
          simp only [pyValSize] at hv hs
          exact ihf g (by omega) v' (by omega)
      | none =>
          obtain ⟨g, rfl⟩ : ∃ g, f = g + 1 :=
            ⟨f - 1, by simp only [pyValSize] at hv; omega⟩
          rfl
      | bool b =>
          obtain ⟨g, rfl⟩ : ∃ g, f = g + 1 :=
            ⟨f - 1, by simp only [pyValSize] at hv; omega⟩
          rfl
      | int n =>
          obtain ⟨g, rfl⟩ : ∃ g, f = g + 1 :=
            ⟨f - 1, by simp only [pyValSize] at hv; omega⟩
          rfl
      | float ff =>
          obtain ⟨g, rfl⟩ : ∃ g, f = g + 1 :=
            ⟨f - 1, by simp only [pyValSize] at hv; omega⟩
          rfl
      | str s =>
          obtain ⟨g, rfl⟩ : ∃ g, f = g + 1 :=
            ⟨f - 1, by simp only [pyValSize] at hv; omega⟩
          rfl
      | list l =>
          obtain ⟨g, rfl⟩ : ∃ g, f = g + 1 :=
            ⟨f - 1, by simp only [pyValSize] at hv; omega⟩
          rfl

/-- Any fuel of at least `pyValSize v` computes exactly
`normalize_ecommerce_status v`: the fuelled unfolding is a faithful
presentation of the (finitely deep) Python recursion. -/
theorem normalizeF_stable :
    ∀ (f : Nat) (v : PyVal), pyValSize v ≤ f →
      normalizeF f v = normalize_ecommerce_status v := by
  intro f v hv
  unfold normalize_ecommerce_status
  obtain ⟨m, rfl⟩ : ∃ m, f = pyValSize v + m := ⟨f - pyValSize v, by omega⟩
  induction m with
  | zero => rfl
  | succ m ih =>
      have he : pyValSize v + (m + 1) = (pyValSize v + m) + 1 := by omega
      rw [he, normalizeF_succ_eq (pyValSize v + m) v (by omega)]
      exact ih (by omega)

/-- String normalization raises only when the mapping misses and the string
coerces to an infinite float. -/
theorem normStr_error_overflow (s : String) (e : PyErr)
    (h : normStr s = .error e) :
    (statusMapping (pyLower (pyStrip s))).isNone = true ∧
      isInfFloatStr (pyLower (pyStrip s)) = true := by
  unfold normStr at h
  cases hm : statusMapping (pyLower (pyStrip s)) with
  | some n => rw [hm] at h; simp at h
  | none =>
      rw [hm] at h
      refine ⟨rfl, ?_⟩
      unfold normStrTail at h
      unfold isInfFloatStr
      cases hp : pyParseFloat (pyLower (pyStrip s)) with
      | none => rw [hp] at h; simp at h
      | some pf =>
          rw [hp] at h
          cases pf with
          | finite num den => simp at h
          | inf => rfl
          | ninf => rfl
          | nan => simp at h

/-- A table of the documented raw status shapes, evaluated on the embedded
normalizer (`0` Available, `1` NotAvailable): integers and numeric strings
by truncated value, the string mapping (case-insensitive, stripped), and
nested dicts through the recognized keys in priority order. -/
theorem normalize_status_shape_table :
    normalize_ecommerce_status (PyVal.int 1) = .ok 1 ∧
    normalize_ecommerce_status (PyVal.int 0) = .ok 0 ∧
    normalize_ecommerce_status (PyVal.str "1") = .ok 1 ∧
    normalize_ecommerce_status (PyVal.str "0") = .ok 0 ∧
    normalize_ecommerce_status (PyVal.str "disabled") = .ok 1 ∧
    normalize_ecommerce_status (PyVal.str " Enabled ") = .ok 0 ∧
    normalize_ecommerce_status (PyVal.str "Active") = .ok 0 ∧
    normalize_ecommerce_status (PyVal.str "Inactive") = .ok 1 ∧
    normalize_ecommerce_status (PyVal.str "2.5") = .ok 1 ∧
    normalize_ecommerce_status (PyVal.str "0.25") = .ok 0 ∧
    normalize_ecommerce_status (PyVal.str "bogus") = .ok 1 ∧
    normalize_ecommerce_status (PyVal.str "nan") = .ok 1 ∧
    normalize_ecommerce_status PyVal.none = .ok 1 ∧
    normalize_ecommerce_status (PyVal.float (PyFloat.finite 0 1)) = .ok 0 ∧
    normalize_ecommerce_status (PyVal.float PyFloat.nan) = .ok 1 ∧
    normalize_ecommerce_status
      (PyVal.dict (pyDictOf [("Value", PyVal.int 1)])) = .ok 1 ∧
    normalize_ecommerce_status
      (PyVal.dict (pyDictOf [("Status", PyVal.str " Active ")])) = .ok 0 ∧
    normalize_ecommerce_status
      (PyVal.dict (pyDictOf [("ECommerceStatus",
        PyVal.dict (pyDictOf [("Value", PyVal.int 0)]))])) = .ok 0 ∧
    normalize_ecommerce_status
      (PyVal.dict (pyDictOf
        [("Value", PyVal.float PyFloat.inf),
         ("Name", PyVal.str "Enabled")])) = .ok 0 :=
  ⟨rfl, rfl, rfl, rfl, rfl, rfl, rfl, rfl, rfl, rfl, rfl, rfl, rfl, rfl,
   rfl, rfl, rfl, rfl, rfl⟩

/-! ## Claim theorems -/

/-- C1: the spec says the normalizer maps boolean `true` to Available and
`false` to NotAvailable, top-level and under a recognized dict key.  The
code inverts both: the top-level branch `1 if status else 0`
(`paddy.py` line 669) sends `True` to `1` (NotAvailable) and `False` to `0`
(Available), and a dict-nested boolean hits the `isinstance(value, int)`
branch (`0 if value == 0 else 1`, `paddy.py` lines 716-717; Python bools
are ints and `False == 0`), with the same inversion — contradicting the
code's own string mapping (`'true' → 0`), its unreachable
`isinstance(value, bool)` line, `_edit_product_route`'s boolean handling
(`paddy.py` line 498), and `update_product`'s
`isAvailable: status_value == 0` write projection.  This theorem evaluates
the embedded code on the claim's inputs. -/
theorem normalize_bool_inverted :
    normalize_ecommerce_status (PyVal.bool true) = .ok 1 ∧
    normalize_ecommerce_status (PyVal.bool false) = .ok 0 ∧
    normalize_ecommerce_status
      (PyVal.dict (pyDictOf [("isAvailable", PyVal.bool false)])) = .ok 0 ∧
    normalize_ecommerce_status
      (PyVal.dict (pyDictOf [("isAvailable", PyVal.bool true)])) = .ok 1 :=
  ⟨rfl, rfl, rfl, rfl⟩

/-- C2: for both canonical values (`0` Available, `1` NotAvailable), the
write-path projection applied before the upstream PUT in `update_product`
(`statusWriteShape`) normalizes back to the same value — the round trip
holds because the normalizer's dict branch reads the `Value` key first. -/
theorem status_write_round_trip :
    normalize_ecommerce_status (statusWriteShape 0) = .ok 0 ∧
    normalize_ecommerce_status (statusWriteShape 1) = .ok 1 :=
  ⟨rfl, rfl⟩

/-- C3 counterexample: for an Available (`0`) status change, the value
written upstream for the status enum is the nested object
`{Value: 0, Name: "Enabled", isAvailable: true}` — a dict, not the string
`"Enabled"` that the claim states. -/
theorem write_status_is_nested_object :
    update_product_transform (pyDictOf [("ECommerceSettings",
      PyVal.dict (pyDictOf [("ECommerceStatus", PyVal.int 0)]))]) =
      .ok (pyDictOf [("ECommerceSettings",
        PyVal.dict (pyDictOf [("ECommerceStatus",
          PyVal.dict (pyDictOf
            [("Value", PyVal.int 0),
             ("Name", PyVal.str "Enabled"),
             ("isAvailable", PyVal.bool true)]))]))]) ∧
    isStrVal (statusWriteShape 0) = false ∧
    isIntVal (statusWriteShape 0) = false ∧
    isDictVal (statusWriteShape 0) = true :=
  ⟨rfl, rfl, rfl, rfl⟩

/-- C3 amended: for every payload whose `ECommerceSettings.ECommerceStatus`
is the normalized integer `n`, the value written upstream for the status
enum is the nested object `statusWriteShape n` (with `Name` equal to
`"Disabled"` when `n = 1` and `"Enabled"` otherwise, and `isAvailable`
true exactly for `0`), merged into the payload's settings. -/
theorem write_status_nested_shape (payload settings : PyDict) (n : Int)
    (h1 : pyLookup payload "ECommerceSettings" = some (.dict settings))
    (h2 : pyLookup settings "ECommerceStatus" = some (.int n)) :
    update_product_transform payload =
      .ok (dictSet payload "ECommerceSettings"
        (.dict (dictSet settings "ECommerceStatus" (statusWriteShape n)))) := by
  unfold update_product_transform
  simp only [h1, h2, pyInt]

/-- C3 amended, witness at a concrete payload. -/
theorem write_status_nested_shape_witness :
    update_product_transform (pyDictOf [("ECommerceSettings",
      PyVal.dict (pyDictOf
        [("ECommerceStatus", PyVal.int 1),
         ("ExtendedDescription", PyVal.str "d")]))]) =
      .ok (dictSet (pyDictOf [("ECommerceSettings",
        PyVal.dict (pyDictOf
          [("ECommerceStatus", PyVal.int 1),
           ("ExtendedDescription", PyVal.str "d")]))]) "ECommerceSettings"
        (.dict (dictSet (pyDictOf
          [("ECommerceStatus", PyVal.int 1),
           ("ExtendedDescription", PyVal.str "d")]) "ECommerceStatus"
          (statusWriteShape 1)))) :=
  write_status_nested_shape _ _ 1 rfl rfl

/-- C4: an update that changes only `extended_description`, on a product
whose current upstream `ECommerceSettings.ECommerceStatus` is the string
`"Enabled"`, is aborted: the route copies the current settings into the
payload, and `update_product` then applies `int(...)` to the preserved
status (`api_client.py` line 490); `int("Enabled")` raises `ValueError`,
caught by the function's `except Exception`, so the update fails and no
PUT is issued — the claim (and spec §8 "update merge safety") says the
update must proceed with the status preserved. -/
theorem ext_desc_only_update_fails :
    route_update_pipeline
      (pyDictOf [("extended_description", PyVal.str "New text")])
      (pyDictOf [("ECommerceSettings",
        PyVal.dict (pyDictOf
          [("ECommerceStatus", PyVal.str "Enabled"),
           ("ExtendedDescription", PyVal.str "Old")]))]) =
      .error PyErr.valueError :=
  rfl

/-- C5 counterexample: `get_products` applies no clamp — requesting 40
items per page on page 2 puts `fetch = 40` and `offset = 40` into the
upstream query, not the claimed effective limit of 30. -/
theorem get_products_limit_not_clamped :
    get_products_params 5 2 40 Option.none "asc" =
      .ok { categoryEq := 5, offset := 40, fetch := 40,
            sort := "Code[asc]" } ∧
    (((40 : Int) == 30) = false) :=
  ⟨rfl, rfl⟩

/-- C5 amended: `search_products_api` clamps the requested page size with
`min(items_per_page, 30)` in both the fetch parameter and the offset
computation, while `get_products` uses the caller's page size unclamped in
both. -/
theorem search_clamped_get_products_unclamped
    (category codeQuery descriptionQuery sortField : Option String)
    (page itemsPerPage categoryId : Int) (sortDirection : String)
    (hipp : 30 < itemsPerPage) (hcid : categoryId ≠ 0) :
    (search_products_api_params category codeQuery descriptionQuery page
        itemsPerPage).fetch = 30 ∧
    (search_products_api_params category codeQuery descriptionQuery page
        itemsPerPage).offset = (page - 1) * 30 ∧
    get_products_params categoryId page itemsPerPage sortField
        sortDirection =
      .ok { categoryEq := categoryId, offset := (page - 1) * itemsPerPage,
            fetch := itemsPerPage,
            sort := get_products_sort_param sortField sortDirection } := by
  have hmin : min itemsPerPage MAX_ITEMS_PER_PAGE = 30 := by
    unfold MAX_ITEMS_PER_PAGE
    omega
  refine ⟨?_, ?_, ?_⟩
  · show min itemsPerPage MAX_ITEMS_PER_PAGE = 30
    exact hmin
  · show (page - 1) * min itemsPerPage MAX_ITEMS_PER_PAGE = (page - 1) * 30
    rw [hmin]
  · unfold get_products_params
    rw [if_neg hcid]

/-- C5 amended, witness at page 2 with a requested page size of 45. -/
theorem search_clamped_get_products_unclamped_witness :
    (search_products_api_params Option.none Option.none Option.none 2
        45).fetch = 30 ∧
    (search_products_api_params Option.none Option.none Option.none 2
        45).offset = (2 - 1) * 30 ∧
    get_products_params 5 2 45 Option.none "asc" =
      .ok { categoryEq := 5, offset := (2 - 1) * 45, fetch := 45,
            sort := get_products_sort_param Option.none "asc" } :=
  search_clamped_get_products_unclamped Option.none Option.none Option.none
    Option.none 2 45 5 "asc" (by decide) (by decide)

/-- C6: every product in the page returned by `get_products`'s successful
response processing has `Category.ID` equal to the requested category —
the defensive re-filter (`api_client.py` lines 434-437) removes the
rest. -/
theorem get_products_refilters_by_category
    (categoryId page itemsPerPage : Int) (resp : PyDict)
    (pg : ProductPage) (p : PyVal)
    (hok : get_products_process categoryId page itemsPerPage resp = .ok pg)
    (hp : p ∈ pg.data) :
    pyEqInt (productCategoryId p) categoryId = true := by
  unfold get_products_process at hok
  cases htc : respTotalCount resp with
  | error e => rw [htc] at hok; cases hok
  | ok tc =>
      rw [htc] at hok
      cases hd : respData resp with
      | error e => rw [hd] at hok; cases hok
      | ok data =>
          rw [hd] at hok
          injection hok with hok
          subst hok
          exact (List.mem_filter.mp hp).2

/-- C6, witness: an upstream response mixing categories 5 and 7 yields a
page whose only product is the category-5 one, and it satisfies the
invariant. -/
theorem get_products_refilters_by_category_witness :
    pyEqInt (productCategoryId (PyVal.dict (pyDictOf
      [("ID", PyVal.int 101),
       ("Category", PyVal.dict (pyDictOf [("ID", PyVal.int 5)]))]))) 5 =
      true :=
  get_products_refilters_by_category 5 1 30
    (pyDictOf [("TotalCount", PyVal.int 2),
      ("Data", PyVal.list
        [PyVal.dict (pyDictOf
          [("ID", PyVal.int 101),
           ("Category", PyVal.dict (pyDictOf [("ID", PyVal.int 5)]))]),
         PyVal.dict (pyDictOf
          [("ID", PyVal.int 102),
           ("Category", PyVal.dict (pyDictOf [("ID", PyVal.int 7)]))])])])
    { totalCount := 2, currentPage := 1, itemsPerPage := 30,
      totalPages := 1,
      data := [PyVal.dict (pyDictOf
        [("ID", PyVal.int 101),
         ("Category", PyVal.dict (pyDictOf [("ID", PyVal.int 5)]))])] }
    (PyVal.dict (pyDictOf
      [("ID", PyVal.int 101),
       ("Category", PyVal.dict (pyDictOf [("ID", PyVal.int 5)]))]))
    (by rfl)
    (List.Mem.head _)

/-- C7: when the cache read fails in any way (store missing, unreadable or
unparseable) and the upstream fetch also fails, `get_categories` returns
exactly `{TotalCount: 0, Data: []}`; the embedding is a total function, so
no exception reaches the caller on this path. -/
theorem get_categories_degrades_to_empty (cache : CacheRead) (e : PyErr)
    (hc : ∀ d, cache ≠ CacheRead.cached d) :
    get_categories cache (.error e) = emptyCategories := by
  cases cache with
  | cached d => exact absurd rfl (hc d)
  | missing => rfl
  | readFailure => rfl
  | parseFailure => rfl

/-- C7, witness: an unparseable cache plus an upstream `APIError`. -/
theorem get_categories_degrades_to_empty_witness :
    get_categories CacheRead.parseFailure (.error PyErr.apiError) =
      emptyCategories :=
  get_categories_degrades_to_empty CacheRead.parseFailure PyErr.apiError
    (fun _ h => nomatch h)

/-- C8 counterexample: normalization can raise — a top-level infinite
float, a string coercing to one (`"inf"`, or a decimal literal overflowing
the double range like `"1e400"`), or an integer too large to convert to a
double (`10^400`) makes `int(float(status))` raise `OverflowError`, which
the numeric branch's `except (ValueError, TypeError)` does not catch. -/
theorem normalize_inf_raises :
    normalize_ecommerce_status (PyVal.float PyFloat.inf) =
      .error PyErr.overflowError ∧
    normalize_ecommerce_status (PyVal.str "inf") =
      .error PyErr.overflowError ∧
    normalize_ecommerce_status (PyVal.str "1e400") =
      .error PyErr.overflowError ∧
    normalize_ecommerce_status (PyVal.int (10 ^ 400)) =
      .error PyErr.overflowError :=
  ⟨rfl, rfl, rfl, rfl⟩

/-- C8 amended: for every input that is not a top-level infinity (the
`OverflowError` case above), the normalizer returns one of the two
canonical values without raising, and every unrecognized shape (a list, or
a dict without any recognized key) resolves to `1`, NotAvailable. -/
theorem normalize_total_unless_overflow :
    ∀ v : PyVal, topLevelOverflow v = false →
      (normalize_ecommerce_status v = .ok 0 ∨
        normalize_ecommerce_status v = .ok 1) ∧
      (unrecognizedShape v = true → normalize_ecommerce_status v = .ok 1) := by
  intro v hv
  constructor
  · cases v with
    | none => exact Or.inr rfl
    | bool b =>
        cases b
        · exact Or.inl rfl
        · exact Or.inr rfl
    | int n =>
        have hb : ¬ floatOverflowBound ≤ n.natAbs := by
          simpa [topLevelOverflow, decide_eq_false_iff_not] using hv
        rcases eq_or_ne n 0 with hn | hn
        · refine Or.inl ?_
          show (if floatOverflowBound ≤ n.natAbs then
              Except.error PyErr.overflowError
            else Except.ok (if n = 0 then 0 else 1)) = Except.ok 0
          rw [if_neg hb, if_pos hn]
        · refine Or.inr ?_
          show (if floatOverflowBound ≤ n.natAbs then
              Except.error PyErr.overflowError
            else Except.ok (if n = 0 then 0 else 1)) = Except.ok 1
          rw [if_neg hb, if_neg hn]
    | float ff =>
        cases ff with
        | finite num den =>
            rcases eq_or_ne (floatTrunc num den) 0 with hn | hn
            · refine Or.inl ?_
              show Except.ok (if floatTrunc num den = 0 then 0 else 1) =
                Except.ok 0
              rw [if_pos hn]
            · refine Or.inr ?_
              show Except.ok (if floatTrunc num den = 0 then 0 else 1) =
                Except.ok 1
              rw [if_neg hn]
        | inf => simp [topLevelOverflow] at hv
        | ninf => simp [topLevelOverflow] at hv
        | nan => exact Or.inr rfl
    | str s =>
        show normStr s = .ok 0 ∨ normStr s = .ok 1
        rcases normStr_range s with h | h | h
        · exact Or.inl h
        · exact Or.inr h
        · exfalso
          rcases normStr_error_overflow s _ h with ⟨hm, hi⟩
          simp [topLevelOverflow, hm, hi] at hv
    | list l => exact Or.inr rfl
    | dict d =>
        show dictLoop (normalizeF (pyDictSize d)) d dictKeysToCheck =
            .ok 0 ∨
          dictLoop (normalizeF (pyDictSize d)) d dictKeysToCheck = .ok 1
        exact dictLoop_range _ (normalizeF_range _) d _
  · intro hu
    cases v with
    | list l => rfl
    | dict d =>
        show dictLoop (normalizeF (pyDictSize d)) d dictKeysToCheck = .ok 1
        apply dictLoop_all_absent
        intro k hk
        have hall := List.all_eq_true.mp hu k hk
        exact Option.isNone_iff_eq_none.mp hall
    | none => simp [unrecognizedShape] at hu
    | bool b => simp [unrecognizedShape] at hu
    | int n => simp [unrecognizedShape] at hu
    | float ff => simp [unrecognizedShape] at hu
    | str s => simp [unrecognizedShape] at hu

/-- C8 amended, witness: a dict with no recognized key is not an overflow
input, normalizes canonically, and resolves to NotAvailable. -/
theorem normalize_total_unless_overflow_witness :
    topLevelOverflow (PyVal.dict (pyDictOf [("foo", PyVal.int 5)])) =
        false ∧
      ((normalize_ecommerce_status
          (PyVal.dict (pyDictOf [("foo", PyVal.int 5)])) = .ok 0 ∨
        normalize_ecommerce_status
          (PyVal.dict (pyDictOf [("foo", PyVal.int 5)])) = .ok 1) ∧
       (unrecognizedShape (PyVal.dict (pyDictOf [("foo", PyVal.int 5)])) =
            true →
         normalize_ecommerce_status
           (PyVal.dict (pyDictOf [("foo", PyVal.int 5)])) = .ok 1)) :=
  ⟨rfl, normalize_total_unless_overflow _ rfl⟩

/-- C9 counterexample: a PUT response with `Status = "Ok"` is treated as a
failed update — only the literal `'Processed'` is accepted
(`api_client.py` line 527), while the claim says `"Ok"` is also a success
sentinel. -/
theorem update_status_ok_treated_failed :
    update_product_outcome
      (PyVal.dict (pyDictOf
        [("Status", PyVal.str "Ok"), ("Message", PyVal.str "")])) =
      UpdateOutcome.failed ∧
    update_product_outcome
      (PyVal.dict (pyDictOf
        [("Status", PyVal.str "Processed"), ("Message", PyVal.str "")])) =
      UpdateOutcome.success :=
  ⟨rfl, rfl⟩

/-- C9 amended: `update_product` treats the PUT response as a successful
update exactly when it is a dict whose `Status` equals the literal string
`"Processed"`; every other `Status` value (including `"Ok"`) and every
non-dict response is treated as a failure. -/
theorem update_success_iff_processed (resp : PyVal) :
    update_product_outcome resp = UpdateOutcome.success ↔
      (∃ d, resp = PyVal.dict d ∧
        pyLookup d "Status" = some (PyVal.str "Processed")) := by
  cases resp with
  | dict d =>
      constructor
      · intro h
        simp only [update_product_outcome] at h
        by_cases hc :
            isProcessedStatus ((pyLookup d "Status").getD PyVal.none) = true
        · refine ⟨d, rfl, ?_⟩
          cases hs : pyLookup d "Status" with
          | none => rw [hs] at hc; simp [isProcessedStatus] at hc
          | some v =>
              rw [hs] at hc
              cases v with
              | str s =>
                  simp only [Option.getD_some, isProcessedStatus,
                    decide_eq_true_eq] at hc
                  rw [hc]
              | none => simp [isProcessedStatus] at hc
              | bool b => simp [isProcessedStatus] at hc
              | int n => simp [isProcessedStatus] at hc
              | float ff => simp [isProcessedStatus] at hc
              | list l => simp [isProcessedStatus] at hc
              | dict d2 => simp [isProcessedStatus] at hc
        · rw [if_neg hc] at h
          cases h
      · rintro ⟨d2, hd, hs⟩
        injection hd with hd
        subst hd
        simp only [update_product_outcome]
        rw [hs]
        simp [isProcessedStatus]
  | none =>
      simp only [update_product_outcome]
      constructor
      · intro h; cases h
      · rintro ⟨d2, hd, hs⟩; cases hd
  | bool b =>
      simp only [update_product_outcome]
      constructor
      · intro h; cases h
      · rintro ⟨d2, hd, hs⟩; cases hd
  | int n =>
      simp only [update_product_outcome]
      constructor
      · intro h; cases h
      · rintro ⟨d2, hd, hs⟩; cases hd
  | float ff =>
      simp only [update_product_outcome]
      constructor
      · intro h; cases h
      · rintro ⟨d2, hd, hs⟩; cases hd
  | str s =>
      simp only [update_product_outcome]
      constructor
      · intro h; cases h
      · rintro ⟨d2, hd, hs⟩; cases hd
  | list l =>
      simp only [update_product_outcome]
      constructor
      · intro h; cases h
      · rintro ⟨d2, hd, hs⟩; cases hd

/-- C10: `search_products_api` returns the upstream `Data` unchanged — no
defensive category re-filter is applied, even though its query may carry a
category criterion. -/
theorem search_data_unchanged (page ippEff : Int) (resp : PyDict)
    (tc : Int) (l : List PyVal)
    (htc : pyLookup resp "TotalCount" = some (PyVal.int tc))
    (hd : pyLookup resp "Data" = some (PyVal.list l)) :
    (search_products_api_process page ippEff resp).data = l := by
  have h1 : respTotalCount resp = .ok tc := by
    unfold respTotalCount
    rw [htc]
  have h2 : respData resp = .ok l := by
    unfold respData
    rw [hd]
  unfold search_products_api_process
  rw [h1, h2]

/-- C10, witness: a response mixing categories 5 and 7 comes back with both
products in `Data`, unfiltered. -/
theorem search_data_unchanged_witness :
    (search_products_api_process 1 30 (pyDictOf
      [("TotalCount", PyVal.int 2),
       ("Data", PyVal.list
         [PyVal.dict (pyDictOf
            [("Category", PyVal.dict (pyDictOf [("ID", PyVal.int 5)]))]),
          PyVal.dict (pyDictOf
            [("Category", PyVal.dict (pyDictOf [("ID", PyVal.int 7)]))])])])).data =
      [PyVal.dict (pyDictOf
         [("Category", PyVal.dict (pyDictOf [("ID", PyVal.int 5)]))]),
       PyVal.dict (pyDictOf
         [("Category", PyVal.dict (pyDictOf [("ID", PyVal.int 7)]))])] :=
  search_data_unchanged 1 30 _ 2 _ rfl rfl
